import Mathlib

/-!
Verification of the Movie Recommendation Streamlit client
(`src/streamlit_app.py`) against its natural-language specification.

The Python frontend is shallowly embedded: each pure transform from the
source becomes a Lean function (Python floats are modelled as rationals,
Python strings as `String` or `List Char`, JSON values as an inductive
type, and the fallible HTTP interactions as explicit outcome data the
functions pattern-match on).
-/

namespace MovieRec

/-! ## View-model transforms (src/streamlit_app.py lines 274-282) -/

/-- Embeds line 274: `score_norm = max(0, min(1, movie["ranking_score"] / 5.0))`. -/
def score_norm (ranking_score : ℚ) : ℚ :=
  max 0 (min 1 (ranking_score / 5))

/-- Embeds line 275: `ret_norm = max(0, min(1, movie["retrieval_score"]))`. -/
def ret_norm (retrieval_score : ℚ) : ℚ :=
  max 0 (min 1 retrieval_score)

/-- Embeds line 282: `year_str = str(movie["year"]) if movie["year"] else "N/A"`.
The `year` field of the JSON payload is an optional integer; Python
truthiness makes both a missing (`None`) year and a zero year falsy. -/
def year_str (year : Option Int) : String :=
  match year with
  | none => "N/A"
  | some y => if y = 0 then "N/A" else toString y

/-! ## Claims about the numeric transforms -/

/-- Claim C1: for every `ranking_score`, `score_norm` lies in `[0,1]`, is
monotone non-decreasing, maps `5` to `1`, and maps every non-positive
input to `0`; it is total (defined on all rationals, clamping rather than
rejecting out-of-range input). -/
theorem C1_score_norm_spec (x y : ℚ) (hxy : x ≤ y) :
    0 ≤ score_norm x ∧ score_norm x ≤ 1 ∧
    score_norm x ≤ score_norm y ∧
    score_norm 5 = 1 ∧
    (x ≤ 0 → score_norm x = 0) := by
  unfold score_norm
  refine ⟨le_max_left _ _, ?_, ?_, ?_, ?_⟩
  · exact max_le (by norm_num) (min_le_left _ _)
  · exact max_le_max le_rfl (min_le_min le_rfl (by linarith))
  · norm_num
  · intro hx
    have h5 : x / 5 ≤ 0 := by linarith
    have : min 1 (x / 5) = x / 5 := min_eq_right (by linarith)
    rw [this]
    exact max_eq_left h5

/-- Witness for C1 at the concrete pair `x = -2 ≤ y = 3`. -/
theorem C1_score_norm_spec_witness :
    (-2 : ℚ) ≤ 3 ∧
    (0 ≤ score_norm (-2) ∧ score_norm (-2) ≤ 1 ∧
      score_norm (-2) ≤ score_norm 3 ∧
      score_norm 5 = 1 ∧
      ((-2 : ℚ) ≤ 0 → score_norm (-2) = 0)) :=
  ⟨by norm_num, C1_score_norm_spec (-2) 3 (by norm_num)⟩

/-- Claim C6: `ret_norm` clamps every input outside `[0,1]` to the nearest
bound (`0` below, `1` above) and returns every input inside `[0,1]`
unchanged; it is total and never rejects its input. -/
theorem C6_ret_norm_spec (x : ℚ) :
    (x < 0 → ret_norm x = 0) ∧
    (1 < x → ret_norm x = 1) ∧
    (0 ≤ x → x ≤ 1 → ret_norm x = x) := by
  unfold ret_norm
  refine ⟨?_, ?_, ?_⟩
  · intro hx
    rw [min_eq_right (by linarith)]
    exact max_eq_left (by linarith)
  · intro hx
    rw [min_eq_left (by linarith)]
    exact max_eq_right (by norm_num)
  · intro h0 h1
    rw [min_eq_right h1]
    exact max_eq_right h0

/-- Witness for C6, instantiating each clause at a concrete input. -/
theorem C6_ret_norm_spec_witness :
    ret_norm (-3) = 0 ∧ ret_norm 7 = 1 ∧ ret_norm (1/2) = 1/2 :=
  ⟨(C6_ret_norm_spec (-3)).1 (by norm_num),
   (C6_ret_norm_spec 7).2.1 (by norm_num),
   (C6_ret_norm_spec (1/2)).2.2 (by norm_num) (by norm_num)⟩

/-- Claim C7: `yearLabel` is the decimal rendering of the year when the
year is present and non-zero, and the fixed placeholder `"N/A"` when the
year is missing (`None`) or zero. -/
theorem C7_year_str_spec (y : Int) (hy : y ≠ 0) :
    year_str (some y) = toString y ∧
    year_str none = "N/A" ∧
    year_str (some 0) = "N/A" := by
  refine ⟨?_, rfl, rfl⟩
  simp [year_str, hy]

/-- Witness for C7 at the concrete year `1995`. -/
theorem C7_year_str_spec_witness :
    (1995 : Int) ≠ 0 ∧
    (year_str (some 1995) = toString (1995 : Int) ∧
      year_str none = "N/A" ∧ year_str (some 0) = "N/A") :=
  ⟨by decide, C7_year_str_spec 1995 (by decide)⟩

/-! ## Genre split (src/streamlit_app.py lines 277-280)

Line 279 computes `movie["genres"].split("|")`. Python strings are
embedded as `List Char` and `str.split` with a one-character separator is
embedded as `pySplit`: splitting at every occurrence of the separator,
yielding `[""] `on the empty string, with empty pieces kept. -/

/-- Embeds Python `s.split(sep)` for a one-character separator `sep`. -/
def pySplit (sep : Char) : List Char → List (List Char)
  | [] => [[]]
  | c :: cs =>
    if c = sep then [] :: pySplit sep cs
    else
      match pySplit sep cs with
      | [] => [[c]]
      | p :: ps => (c :: p) :: ps

/-- Embeds line 279: `genreList = movie["genres"].split("|")`. -/
def genreList (genres : List Char) : List (List Char) :=
  pySplit '|' genres

/-- The split never returns the empty list of pieces. -/
theorem pySplit_ne_nil (sep : Char) (s : List Char) : pySplit sep s ≠ [] := by
  induction s with
  | nil => simp [pySplit]
  | cons c cs ih =>
    by_cases h : c = sep
    · simp [pySplit, h]
    · simp only [pySplit, if_neg h]
      cases hs : pySplit sep cs with
      | nil => simp
      | cons p ps => simp

/-- Joining the pieces of `pySplit` with the separator reproduces the
original character list. -/
theorem pySplit_intercalate (sep : Char) (s : List Char) :
    List.intercalate [sep] (pySplit sep s) = s := by
  induction s with
  | nil => simp [pySplit, List.intercalate]
  | cons c cs ih =>
    by_cases h : c = sep
    · subst h
      simp only [pySplit, if_pos rfl]
      cases hs : pySplit c cs with
      | nil => exact absurd hs (pySplit_ne_nil c cs)
      | cons p ps =>
        rw [hs] at ih
        simp only [List.intercalate] at ih ⊢
        simp only [List.intersperse] at ih ⊢
        simpa using ih
    · simp only [pySplit, if_neg h]
      cases hs : pySplit sep cs with
      | nil => exact absurd hs (pySplit_ne_nil sep cs)
      | cons p ps =>
        rw [hs] at ih
        cases ps with
        | nil => simpa [List.intercalate] using ih
        | cons q qs =>
          simp only [List.intercalate, List.intersperse] at ih ⊢
          simpa using ih

/-- No piece returned by `pySplit` contains the separator. -/
theorem pySplit_no_sep (sep : Char) (s : List Char) :
    ∀ p ∈ pySplit sep s, sep ∉ p := by
  induction s with
  | nil => simp [pySplit]
  | cons c cs ih =>
    by_cases h : c = sep
    · simp only [pySplit, if_pos h]
      intro p hp
      rcases List.mem_cons.mp hp with hp | hp
      · subst hp; simp
      · exact ih p hp
    · simp only [pySplit, if_neg h]
      cases hs : pySplit sep cs with
      | nil => exact absurd hs (pySplit_ne_nil sep cs)
      | cons q qs =>
        rw [hs] at ih
        intro p hp
        rcases List.mem_cons.mp hp with hp | hp
        · subst hp
          intro hmem
          rcases List.mem_cons.mp hmem with hmem | hmem
          · exact h hmem.symm
          · exact ih q (by simp) hmem
        · exact ih p (by simp [hp])

/-- Splitting a separator-free piece returns just that piece. -/
theorem pySplit_of_no_sep (sep : Char) (p : List Char) (hp : sep ∉ p) :
    pySplit sep p = [p] := by
  induction p with
  | nil => rfl
  | cons c cs ih =>
    have hc : ¬c = sep := fun hc => hp (by simp [hc])
    have hcs : sep ∉ cs := fun hm => hp (by simp [hm])
    simp [pySplit, if_neg hc, ih hcs]

/-- Splitting a separator-free piece followed by the separator and a rest
peels off exactly that piece. -/
theorem pySplit_append_sep (sep : Char) (p rest : List Char) (hp : sep ∉ p) :
    pySplit sep (p ++ sep :: rest) = p :: pySplit sep rest := by
  induction p with
  | nil => simp [pySplit]
  | cons c cs ih =>
    have hc : ¬c = sep := fun hc => hp (by simp [hc])
    have hcs : sep ∉ cs := fun hm => hp (by simp [hm])
    simp only [List.cons_append, pySplit, if_neg hc, List.append_eq, ih hcs]

/-- Splitting the separator-join of a non-empty list of separator-free
pieces returns exactly those pieces, in order, duplicates preserved. -/
theorem pySplit_intercalate_of_no_sep (sep : Char) (pieces : List (List Char))
    (hne : pieces ≠ []) (hfree : ∀ p ∈ pieces, sep ∉ p) :
    pySplit sep (List.intercalate [sep] pieces) = pieces := by
  induction pieces with
  | nil => exact absurd rfl hne
  | cons p ps ih =>
    cases ps with
    | nil =>
      simp only [List.intercalate, List.intersperse, List.flatten]
      simpa using pySplit_of_no_sep sep p (hfree p (by simp))
    | cons q qs =>
      have hjoin : List.intercalate [sep] (p :: q :: qs)
          = p ++ sep :: List.intercalate [sep] (q :: qs) := by
        simp [List.intercalate, List.intersperse]
      rw [hjoin, pySplit_append_sep sep p _ (hfree p (by simp))]
      rw [ih (by simp) (fun r hr => hfree r (by simp [List.mem_cons] at hr ⊢; tauto))]

/-- Claim C4: the genre split `genreList = split(genres, "|")` yields
pieces free of the delimiter, is a right inverse of joining (joining the
pieces with `"|"` reproduces the original string), and is order- and
duplicate-preserving: splitting the join of any non-empty sequence of
delimiter-free tags returns exactly that sequence in its original order. -/
theorem C4_genre_split_spec (s : List Char) (pieces : List (List Char))
    (hne : pieces ≠ []) (hfree : ∀ p ∈ pieces, '|' ∉ p) :
    (∀ p ∈ genreList s, '|' ∉ p) ∧
    List.intercalate ['|'] (genreList s) = s ∧
    genreList (List.intercalate ['|'] pieces) = pieces :=
  ⟨pySplit_no_sep '|' s, pySplit_intercalate '|' s,
   pySplit_intercalate_of_no_sep '|' pieces hne hfree⟩

/-- Witness for C4 on the concrete genres string "a|b" and the concrete
tag sequence `["a", "b"]`. -/
theorem C4_genre_split_spec_witness :
    ([['a'], ['b']] ≠ ([] : List (List Char)) ∧
      ∀ p ∈ [['a'], ['b']], '|' ∉ p) ∧
    ((∀ p ∈ genreList ['a', '|', 'b'], '|' ∉ p) ∧
      List.intercalate ['|'] (genreList ['a', '|', 'b']) = ['a', '|', 'b'] ∧
      genreList (List.intercalate ['|'] [['a'], ['b']]) = [['a'], ['b']]) :=
  ⟨⟨by decide, by decide⟩,
   C4_genre_split_spec ['a', '|', 'b'] [['a'], ['b']] (by decide) (by decide)⟩

/-! ## JSON values and HTTP request outcomes

The HTTP layer (`requests`) is embedded by making the outcome of a
network call explicit data: either a response arrived (with a status code
and a body whose JSON parse may fail, since `r.json()` raises on invalid
JSON), or `requests` raised `ConnectionError`, or some other exception
was raised (timeouts included). -/

/-- JSON values exchanged with the backend. -/
inductive JVal where
  | jnull
  | jbool (b : Bool)
  | jnum (q : ℚ)
  | jstr (s : String)
  | jarr (elems : List JVal)
  | jobj (fields : List (String × JVal))

/-- First-match lookup of a key among a JSON object's fields. -/
def jlookup (fields : List (String × JVal)) (key : String) : Option JVal :=
  match fields with
  | [] => none
  | (k, v) :: rest => if k = key then some v else jlookup rest key

/-- Embeds Python `x.get(key, default)`: dictionary lookup with a default
on a JSON object, and an `AttributeError` on any non-object value. -/
def pyGet (v : JVal) (key : String) (dflt : JVal) : Except String JVal :=
  match v with
  | .jobj fields =>
    .ok (match jlookup fields key with
         | some w => w
         | none => dflt)
  | _ => .error "AttributeError: object has no attribute get"

/-- An HTTP response: its status code and the result of `r.json()`. -/
structure HttpResponse where
  status : Nat
  jsonBody : Except String JVal

/-- Embeds `r.ok` from `requests`: true exactly when the status code is
below 400. -/
def HttpResponse.isOk (r : HttpResponse) : Bool := r.status < 400

/-- Outcome of attempting an HTTP request. -/
inductive RequestOutcome where
  | response (r : HttpResponse)
  | connError (e : String)
  | otherExc (e : String)

/-- Embeds lines 117-127 of src/streamlit_app.py:

```
def fetch_recommendations(user_id, top_k, top_n):
    try:
        payload = ...
        r = requests.post(..., timeout=30)
        if r.ok:
            return r.json(), None
        return None, r.json().get("detail", "Unknown error")
    except requests.exceptions.ConnectionError:
        return None, "Cannot connect to API. Make sure FastAPI is running on port 8000."
    except Exception as e:
        return None, str(e)
```

An exception raised by `r.json()` or `.get` inside the `try` block is
caught by `except Exception` and surfaced as its text. -/
def fetch_recommendations (outcome : RequestOutcome) : Option JVal × Option JVal :=
  match outcome with
  | .response r =>
    if r.isOk then
      match r.jsonBody with
      | .ok j => (some j, none)
      | .error e => (none, some (.jstr e))
    else
      match r.jsonBody with
      | .ok j =>
        match pyGet j "detail" (.jstr "Unknown error") with
        | .ok d => (none, some d)
        | .error e => (none, some (.jstr e))
      | .error e => (none, some (.jstr e))
  | .connError _ =>
    (none, some (.jstr "Cannot connect to API. Make sure FastAPI is running on port 8000."))
  | .otherExc e => (none, some (.jstr e))

/-- Embeds lines 109-114 of src/streamlit_app.py:

```
def fetch_stats():
    try:
        r = requests.get(f"...", timeout=5)
        return r.json() if r.ok else None
    except Exception:
        return None
```
-/
def fetch_stats (outcome : RequestOutcome) : Option JVal :=
  match outcome with
  | .response r =>
    if r.isOk then
      match r.jsonBody with
      | .ok j => some j
      | .error _ => none
    else none
  | .connError _ => none
  | .otherExc _ => none

/-- The in-memory cache state of `@st.cache_data(ttl=60)`: the time the
cached value was fetched, paired with that value, when one exists. -/
structure StatsCache where
  entry : Option (ℚ × Option JVal)

/-- Embeds the `@st.cache_data(ttl=60)` decorator applied to
`fetch_stats` (line 108): while a cached entry is younger than the
60-second TTL, calls return it without touching the network; otherwise a
network call is made and its result stored with the current time. The
returned flag records whether a network request was issued. -/
def fetch_stats_cached (cache : StatsCache) (now : ℚ) (outcome : RequestOutcome) :
    Option JVal × StatsCache × Bool :=
  match cache.entry with
  | some (t, v) =>
    if now - t < 60 then (v, cache, false)
    else (fetch_stats outcome, ⟨some (now, fetch_stats outcome)⟩, true)
  | none => (fetch_stats outcome, ⟨some (now, fetch_stats outcome)⟩, true)

/-- Claim C2: `fetch_recommendations` classifies failures as follows. On a
non-success status it surfaces the `detail` field of the JSON body,
defaulting to "Unknown error" when that field is absent; a 404 whose body
is the object with `detail` set to "User not found" yields exactly that
string. On a connection failure it returns the fixed diagnostic message
telling the operator to start the backend, whatever the transport
exception text was. On any other exception it returns that exception's
text. -/
theorem C2_fetch_recommendations_errors
    (status : Nat) (fields : List (String × JVal)) (d : JVal) (e1 e2 : String)
    (hstatus : 400 ≤ status) :
    (jlookup fields "detail" = some d →
      fetch_recommendations (.response ⟨status, .ok (.jobj fields)⟩) = (none, some d)) ∧
    (jlookup fields "detail" = none →
      fetch_recommendations (.response ⟨status, .ok (.jobj fields)⟩)
        = (none, some (.jstr "Unknown error"))) ∧
    fetch_recommendations
        (.response ⟨404, .ok (.jobj [("detail", .jstr "User not found")])⟩)
      = (none, some (.jstr "User not found")) ∧
    fetch_recommendations (.connError e1)
      = (none, some (.jstr "Cannot connect to API. Make sure FastAPI is running on port 8000.")) ∧
    fetch_recommendations (.otherExc e2) = (none, some (.jstr e2)) := by
  have hok : (⟨status, .ok (.jobj fields)⟩ : HttpResponse).isOk = false := by
    simp [HttpResponse.isOk]; omega
  refine ⟨?_, ?_, rfl, rfl, rfl⟩
  · intro hd
    simp [fetch_recommendations, hok, pyGet, hd]
  · intro hd
    simp [fetch_recommendations, hok, pyGet, hd]

/-- Witness for C2: a 500 status with body having `detail` set to "boom",
and concrete transport failures. -/
theorem C2_fetch_recommendations_errors_witness :
    (400 : Nat) ≤ 500 ∧
    ((jlookup [("detail", JVal.jstr "boom")] "detail" = some (.jstr "boom") →
      fetch_recommendations (.response ⟨500, .ok (.jobj [("detail", .jstr "boom")])⟩)
        = (none, some (.jstr "boom"))) ∧
    (jlookup [("detail", JVal.jstr "boom")] "detail" = none →
      fetch_recommendations (.response ⟨500, .ok (.jobj [("detail", .jstr "boom")])⟩)
        = (none, some (.jstr "Unknown error"))) ∧
    fetch_recommendations
        (.response ⟨404, .ok (.jobj [("detail", .jstr "User not found")])⟩)
      = (none, some (.jstr "User not found")) ∧
    fetch_recommendations (.connError "refused")
      = (none, some (.jstr "Cannot connect to API. Make sure FastAPI is running on port 8000.")) ∧
    fetch_recommendations (.otherExc "timed out") = (none, some (.jstr "timed out"))) :=
  ⟨by norm_num,
   C2_fetch_recommendations_errors 500 [("detail", .jstr "boom")] (.jstr "boom")
     "refused" "timed out" (by norm_num)⟩

/-- Claim C9: `fetch_recommendations` is total (the embedding is a Lean
function, mirroring that every exception is caught) and always returns an
Either-style pair the caller can branch on exhaustively: every result is
either the parsed JSON paired with null, or null paired with a non-null
message. A success status with a parseable body yields exactly the
former, and every failure path (non-success status, unparseable body,
connection failure, any other exception) yields exactly the latter. -/
theorem C9_fetch_recommendations_either
    (outcome : RequestOutcome) (r : HttpResponse) (j : JVal) (e : String) :
    ((∃ d, fetch_recommendations outcome = (some d, none)) ∨
      (∃ msg, fetch_recommendations outcome = (none, some msg))) ∧
    (r.isOk = true → r.jsonBody = .ok j →
      fetch_recommendations (.response r) = (some j, none)) ∧
    (r.isOk = false →
      ∃ msg, fetch_recommendations (.response r) = (none, some msg)) ∧
    (∀ e2, r.isOk = true → r.jsonBody = .error e2 →
      fetch_recommendations (.response r) = (none, some (.jstr e2))) ∧
    (∃ msg, fetch_recommendations (.connError e) = (none, some msg)) ∧
    (∃ msg, fetch_recommendations (.otherExc e) = (none, some msg)) := by
  have hfail : ∀ r' : HttpResponse, r'.isOk = false →
      ∃ msg, fetch_recommendations (.response r') = (none, some msg) := by
    intro r' h
    simp only [fetch_recommendations, h, Bool.false_eq_true, if_false]
    cases hb : r'.jsonBody with
    | ok j' =>
      cases hg : pyGet j' "detail" (.jstr "Unknown error") with
      | ok d => exact ⟨d, by simp [hg]⟩
      | error e' => exact ⟨.jstr e', by simp [hg]⟩
    | error e' => exact ⟨.jstr e', rfl⟩
  refine ⟨?_, ?_, hfail r, ?_, ⟨_, rfl⟩, ⟨_, rfl⟩⟩
  · cases outcome with
    | response r' =>
      by_cases h : r'.isOk
      · cases hb : r'.jsonBody with
        | ok j' => left; exact ⟨j', by simp [fetch_recommendations, h, hb]⟩
        | error e' => right; exact ⟨.jstr e', by simp [fetch_recommendations, h, hb]⟩
      · exact Or.inr (hfail r' (by simpa using h))
    | connError e' => right; exact ⟨_, rfl⟩
    | otherExc e' => right; exact ⟨_, rfl⟩
  · intro hok hb
    simp [fetch_recommendations, hok, hb]
  · intro e2 hok hb
    simp [fetch_recommendations, hok, hb]

/-- Witness for C9 at a concrete non-success response and concrete
exceptions. -/
theorem C9_fetch_recommendations_either_witness :
    (⟨404, .ok (.jobj [])⟩ : HttpResponse).isOk = false ∧
    (((∃ d, fetch_recommendations (.response ⟨404, .ok (.jobj [])⟩) = (some d, none)) ∨
      (∃ msg, fetch_recommendations (.response ⟨404, .ok (.jobj [])⟩) = (none, some msg))) ∧
    ((⟨404, .ok (.jobj [])⟩ : HttpResponse).isOk = true →
      (⟨404, .ok (.jobj [])⟩ : HttpResponse).jsonBody = .ok .jnull →
      fetch_recommendations (.response ⟨404, .ok (.jobj [])⟩) = (some .jnull, none)) ∧
    ((⟨404, .ok (.jobj [])⟩ : HttpResponse).isOk = false →
      ∃ msg, fetch_recommendations (.response ⟨404, .ok (.jobj [])⟩) = (none, some msg)) ∧
    (∀ e2, (⟨404, .ok (.jobj [])⟩ : HttpResponse).isOk = true →
      (⟨404, .ok (.jobj [])⟩ : HttpResponse).jsonBody = .error e2 →
      fetch_recommendations (.response ⟨404, .ok (.jobj [])⟩) = (none, some (.jstr e2))) ∧
    (∃ msg, fetch_recommendations (.connError "refused") = (none, some msg)) ∧
    (∃ msg, fetch_recommendations (.otherExc "refused") = (none, some msg))) :=
  ⟨rfl,
   C9_fetch_recommendations_either (.response ⟨404, .ok (.jobj [])⟩)
     ⟨404, .ok (.jobj [])⟩ .jnull "refused"⟩

/-- Claim C5: `fetch_stats` returns null on any failure (non-success
status, transport error, or any other exception, timeouts included)
without propagating, and its result is cached for 60 seconds: starting
from an empty cache, a first call issues a network request, a second call
less than 60 seconds later returns the cached value without a network
request, and a third call more than 60 seconds after the first issues a
second network request. -/
theorem C5_fetch_stats_cache (r : HttpResponse) (e1 e2 : String)
    (o1 o3 : RequestOutcome) (t1 t2 t3 : ℚ)
    (hr : r.isOk = false) (h12 : t2 - t1 < 60) (h13 : 60 < t3 - t1) :
    fetch_stats (.response r) = none ∧
    fetch_stats (.connError e1) = none ∧
    fetch_stats (.otherExc e2) = none ∧
    (fetch_stats_cached ⟨none⟩ t1 o1).2.2 = true ∧
    (fetch_stats_cached (fetch_stats_cached ⟨none⟩ t1 o1).2.1 t2 o1).2.2 = false ∧
    (fetch_stats_cached (fetch_stats_cached ⟨none⟩ t1 o1).2.1 t2 o1).1
      = (fetch_stats_cached ⟨none⟩ t1 o1).1 ∧
    (fetch_stats_cached
        (fetch_stats_cached (fetch_stats_cached ⟨none⟩ t1 o1).2.1 t2 o1).2.1
        t3 o3).2.2 = true := by
  have hcall1 : fetch_stats_cached ⟨none⟩ t1 o1
      = (fetch_stats o1, ⟨some (t1, fetch_stats o1)⟩, true) := rfl
  refine ⟨?_, rfl, rfl, ?_, ?_, ?_, ?_⟩
  · simp [fetch_stats, hr]
  · rw [hcall1]
  · rw [hcall1]
    simp [fetch_stats_cached, h12]
  · rw [hcall1]
    simp [fetch_stats_cached, h12]
  · rw [hcall1]
    simp only [fetch_stats_cached, if_pos h12]
    simp [fetch_stats_cached, not_lt.mpr (le_of_lt h13)]

/-- Witness for C5 with a 404 response, concrete exceptions, and call
times 0, 30 and 61 seconds. -/
theorem C5_fetch_stats_cache_witness :
    ((⟨404, .ok .jnull⟩ : HttpResponse).isOk = false ∧
      (30 : ℚ) - 0 < 60 ∧ (60 : ℚ) < 61 - 0) ∧
    (fetch_stats (.response ⟨404, .ok .jnull⟩) = none ∧
    fetch_stats (.connError "refused") = none ∧
    fetch_stats (.otherExc "timed out") = none ∧
    (fetch_stats_cached ⟨none⟩ 0 (.connError "refused")).2.2 = true ∧
    (fetch_stats_cached (fetch_stats_cached ⟨none⟩ 0 (.connError "refused")).2.1 30
        (.connError "refused")).2.2 = false ∧
    (fetch_stats_cached (fetch_stats_cached ⟨none⟩ 0 (.connError "refused")).2.1 30
        (.connError "refused")).1
      = (fetch_stats_cached ⟨none⟩ 0 (.connError "refused")).1 ∧
    (fetch_stats_cached
        (fetch_stats_cached (fetch_stats_cached ⟨none⟩ 0 (.connError "refused")).2.1 30
          (.connError "refused")).2.1
        61 (.connError "refused")).2.2 = true) :=
  ⟨⟨rfl, by norm_num, by norm_num⟩,
   C5_fetch_stats_cache ⟨404, .ok .jnull⟩ "refused" "timed out"
     (.connError "refused") (.connError "refused") 0 30 61
     rfl (by norm_num) (by norm_num)⟩

/-! ## Export transform (src/streamlit_app.py lines 322-338) -/

/-- A `RecommendedMovie` as received from the backend: the fields of each
element of `data["recommendations"]` that the client reads. -/
structure RecommendedMovie where
  rank : Int
  movie_id : Int
  title : String
  genres : String
  year : Option Int
  ranking_score : ℚ
  retrieval_score : ℚ

/-- One flat record of the export table, with the column names of lines
323-329 mapped to Lean field names. -/
structure ExportRow where
  rank : Int
  movie_id : Int
  title : String
  genres : String
  year : Option Int
  predicted_rating : ℚ
  retrieval_score : ℚ

/-- Embeds the per-movie dictionary of lines 322-330: every field is the
raw field of the movie, untransformed. -/
def export_row (m : RecommendedMovie) : ExportRow :=
  ⟨m.rank, m.movie_id, m.title, m.genres, m.year, m.ranking_score, m.retrieval_score⟩

/-- Embeds the list comprehension of lines 322-330 building `df_export`:
one row per recommendation, in input order. -/
def df_export (recs : List RecommendedMovie) : List ExportRow :=
  recs.map export_row

/-- The header row emitted by `df_export.to_csv(index=False)` (line 332):
the column names of lines 323-329, comma-joined. -/
def export_header : String :=
  "Rank,Movie ID,Title,Genres,Year,Predicted Rating,Retrieval Score"

/-- CSV minimal quoting as pandas applies it: a field containing the
delimiter, a double quote, or a line break is wrapped in double quotes
with inner double quotes doubled; other fields are written verbatim. -/
def csvQuote (s : String) : String :=
  if s.toList.any (fun c => c = ',' ∨ c = '"' ∨ c = '\n' ∨ c = '\r') then
    "\"" ++ String.mk
      ((s.toList.map (fun c => if c = '"' then ['"', '"'] else [c])).flatten)
      ++ "\""
  else s

/-- A missing (`None`) year serialises as an empty CSV field; a present
year as its decimal rendering. -/
def render_year (y : Option Int) : String :=
  match y with
  | none => ""
  | some v => toString v

/-- One serialised CSV line of the export table (scores rendered through
Lean's rational rendering in this model). -/
def render_row (r : ExportRow) : String :=
  String.intercalate ","
    [toString r.rank, toString r.movie_id, csvQuote r.title, csvQuote r.genres,
     render_year r.year, toString r.predicted_rating, toString r.retrieval_score]

/-- Embeds line 332, `df_export.to_csv(index=False)`, as the list of CSV
lines: the header followed by one rendered row per recommendation. -/
def to_csv (recs : List RecommendedMovie) : List String :=
  export_header :: (df_export recs).map render_row

/-- Embeds line 336: `file_name=f"recommendations_user_..."` built from
the requesting user id. -/
def export_filename (user_id : Int) : String :=
  "recommendations_user_" ++ toString user_id ++ ".csv"

/-- Embeds line 337: `mime="text/csv"`. -/
def export_mime : String := "text/csv"

/-- Claim C3: the export transform yields exactly one flat row per input
recommendation, in input order, with no re-sort and no dedup; the i-th
export row is the flat record of the i-th recommendation. The CSV starts
with the exact header row, the download filename is derived from the user
id, and the MIME type is `text/csv`; the two-element scenario yields
Predicted Rating values in input order. -/
theorem C3_export_spec (recs : List RecommendedMovie) (m1 m2 : RecommendedMovie) :
    (df_export recs).length = recs.length ∧
    (∀ i : Nat, (df_export recs)[i]? = (recs[i]?).map export_row) ∧
    (to_csv recs).length = recs.length + 1 ∧
    (to_csv recs).head? = some "Rank,Movie ID,Title,Genres,Year,Predicted Rating,Retrieval Score" ∧
    export_filename 1 = "recommendations_user_1.csv" ∧
    export_mime = "text/csv" ∧
    (df_export [m1, m2]).map (fun r => r.predicted_rating)
      = [m1.ranking_score, m2.ranking_score] := by
  refine ⟨List.length_map _ _, ?_, ?_, rfl, rfl, rfl, rfl⟩
  · intro i
    simp [df_export]
  · simp [to_csv, df_export]

/-- Claim C10: the export carries the raw year while the rendered view
substitutes "N/A": for every movie the export row's year is exactly the
movie's year, and when that year is missing the CSV field is empty (never
the string "N/A") while the on-screen label for the same movie is "N/A". -/
theorem C10_year_export_raw (m : RecommendedMovie) (hm : m.year = none) :
    (export_row m).year = m.year ∧
    render_year (export_row m).year = "" ∧
    render_year (export_row m).year ≠ "N/A" ∧
    year_str m.year = "N/A" := by
  refine ⟨rfl, ?_, ?_, ?_⟩
  · simp [export_row, hm, render_year]
  · simp [export_row, hm, render_year]
  · rw [hm]; rfl

/-- Witness for C10 on a concrete movie with a missing year. -/
theorem C10_year_export_raw_witness :
    (RecommendedMovie.year ⟨1, 2571, "The Matrix", "Action|Sci-Fi", none, 9/2, 1/2⟩
        = none) ∧
    ((export_row ⟨1, 2571, "The Matrix", "Action|Sci-Fi", none, 9/2, 1/2⟩).year
        = RecommendedMovie.year ⟨1, 2571, "The Matrix", "Action|Sci-Fi", none, 9/2, 1/2⟩ ∧
      render_year (export_row ⟨1, 2571, "The Matrix", "Action|Sci-Fi", none, 9/2, 1/2⟩).year = "" ∧
      render_year (export_row ⟨1, 2571, "The Matrix", "Action|Sci-Fi", none, 9/2, 1/2⟩).year ≠ "N/A" ∧
      year_str (RecommendedMovie.year ⟨1, 2571, "The Matrix", "Action|Sci-Fi", none, 9/2, 1/2⟩)
        = "N/A") :=
  ⟨rfl, C10_year_export_raw ⟨1, 2571, "The Matrix", "Action|Sci-Fi", none, 9/2, 1/2⟩ rfl⟩

/-! ## Operator-facing parameters (src/streamlit_app.py lines 13, 156-171) -/

/-- Embeds line 13: `API_URL = "http://localhost:8000"`, the backend base
URL constant of the Config section. -/
def API_URL : String := "http://localhost:8000"

/-- Embeds the `st.number_input` of lines 156-160 (`min_value=1,
max_value=6040, step=1`): the widget only ever yields a value inside the
declared bounds, modelled by clamping an arbitrary entry. -/
def user_id_input (entered : Int) : Int := max 1 (min 6040 entered)

/-- Embeds the `st.slider` of lines 162-165 (`min_value=5, max_value=30,
step=5`): the widget only ever yields a grid value `5, 10, ..., 30`,
modelled by the selected grid index. -/
def top_n_slider (idx : Nat) : Nat := 5 + 5 * min idx 5

/-- Embeds the `st.slider` of lines 167-171 (`min_value=50, max_value=500,
step=50`): the widget only ever yields a grid value `50, 100, ..., 500`. -/
def top_k_slider (idx : Nat) : Nat := 50 + 50 * min idx 9

/-- The body of the POST to `/recommend` (line 119). -/
structure RecommendRequest where
  user_id : Int
  top_k_retrieve : Nat
  top_n_final : Nat

/-- Embeds line 119 as reached from the sidebar widgets (line 247 passes
the widget values into `fetch_recommendations`, which builds `payload`). -/
def mk_payload (entered : Int) (n_idx k_idx : Nat) : RecommendRequest :=
  ⟨user_id_input entered, top_k_slider k_idx, top_n_slider n_idx⟩

/-- Claim C8: every `RecommendRequest` the client issues carries a
`user_id` in 1..6040, a `top_n_final` in 5..30 that is a multiple of 5, a
`top_k_retrieve` in 50..500 that is a multiple of 50, and the backend
base URL constant defaults to `http://localhost:8000`. -/
theorem C8_parameter_ranges (entered : Int) (n_idx k_idx : Nat) :
    1 ≤ (mk_payload entered n_idx k_idx).user_id ∧
    (mk_payload entered n_idx k_idx).user_id ≤ 6040 ∧
    5 ≤ (mk_payload entered n_idx k_idx).top_n_final ∧
    (mk_payload entered n_idx k_idx).top_n_final ≤ 30 ∧
    5 ∣ (mk_payload entered n_idx k_idx).top_n_final ∧
    50 ≤ (mk_payload entered n_idx k_idx).top_k_retrieve ∧
    (mk_payload entered n_idx k_idx).top_k_retrieve ≤ 500 ∧
    50 ∣ (mk_payload entered n_idx k_idx).top_k_retrieve ∧
    API_URL = "http://localhost:8000" := by
  have hn : min n_idx 5 ≤ 5 := min_le_right _ _
  have hk : min k_idx 9 ≤ 9 := min_le_right _ _
  refine ⟨?_, ?_, ?_, ?_, ?_, ?_, ?_, ?_, rfl⟩
  · exact le_max_left _ _
  · simp only [mk_payload, user_id_input]
    exact max_le (by norm_num) (min_le_left _ _)
  · simp [mk_payload, top_n_slider]
  · simp only [mk_payload, top_n_slider]; omega
  · exact ⟨1 + min n_idx 5, by simp [mk_payload, top_n_slider]; ring⟩
  · simp [mk_payload, top_k_slider]
  · simp only [mk_payload, top_k_slider]; omega
  · exact ⟨1 + min k_idx 9, by simp [mk_payload, top_k_slider]; ring⟩

end MovieRec
